import Mathlib

/-!
Verification of src/QualityControl/tobject2json.cc, a native-addon shim
exposing init (configure a database backend) and get (asynchronously fetch a
JSON-serialized object by path and timestamp).  The JavaScript boundary
values, the process-wide configuration statics, the AsyncWorker task
lifecycle and the external database backend are embedded shallowly below,
translated from the source.
-/

/-- JavaScript values as they cross the native-addon boundary.  Numbers are
modelled as integers: the only numeric read in the source goes through
Int64Value. -/
inductive JsValue
  | str (s : String)
  | num (n : Int)
  | func (id : Nat)
  | boolean (b : Bool)
  | null
  | undefined
  | errObj (msg : String)
  deriving DecidableEq

/-- Reading info[i]: arguments past the supplied length read as undefined. -/
def argAt (args : List JsValue) (i : Nat) : JsValue :=
  args.getD i JsValue.undefined

/-- The IsString test on a value. -/
def JsValue.isString : JsValue → Bool
  | .str _ => true
  | _ => false

/-- The IsFunction test on a value. -/
def JsValue.isFunction : JsValue → Bool
  | .func _ => true
  | _ => false

/-- Conversion of a value to std::string through the As-String cast: in the
exception-free native-addon build a failed conversion produces the default
empty string (and sets a pending JavaScript exception, which does not stop
the surrounding C++ code from running on). -/
def JsValue.asString : JsValue → String
  | .str s => s
  | _ => ""

/-- The modulus of uint64_t arithmetic, 2 to the 64. -/
def twoPow64 : Int := 18446744073709551616

/-- The signed 64-bit sign boundary, 2 to the 63. -/
def twoPow63 : Int := 9223372036854775808

/-- Conversion of an integer into uint64_t: reduction modulo 2 to the 64
into the range from 0 inclusive to 2 to the 64 exclusive. -/
def toUInt64Wrap (n : Int) : Int := n % twoPow64

/-- Conversion of an integer into a 64-bit long: reduction modulo 2 to the
64 into the signed range. -/
def toInt64Wrap (n : Int) : Int :=
  if n % twoPow64 < twoPow63 then n % twoPow64 else n % twoPow64 - twoPow64

/-- The Int64Value read of a number: wraps into the signed 64-bit range;
non-numbers give 0 in the exception-free build. -/
def JsValue.int64Value : JsValue → Int
  | .num n => toInt64Wrap n
  | _ => 0

/-- Identity of a callback value; non-functions give a dummy id (GetObject
only reads this after the IsFunction check has passed). -/
def JsValue.funcId : JsValue → Nat
  | .func i => i
  | _ => 0

/-- The five process-wide configuration statics of tobject2json.cc. -/
structure Config where
  type : String
  host : String
  database : String
  username : String
  password : String
  deriving DecidableEq

/-- Result of one call to InitBackend: whether a TypeError was thrown during
the call, and the value of the configuration statics after it returns. -/
structure InitResult where
  threw : Bool
  config : Config
  deriving DecidableEq

/-- InitBackend: throws Invalid argument exactly when the argument count is
below five AND the first argument is not a string (the source combines the
two conditions with a logical and), and then falls through — there is no
early return after the throw — so the five statics are assigned from the
(coerced) arguments on every call. -/
def initBackend (_prev : Config) (args : List JsValue) : InitResult :=
  { threw := decide (args.length < 5) && !(argAt args 0).isString
    config :=
      { type := (argAt args 0).asString
        host := (argAt args 1).asString
        database := (argAt args 2).asString
        username := (argAt args 3).asString
        password := (argAt args 4).asString } }

/-- An error raised by the external database library. -/
structure BackendErr where
  msg : String
  deriving DecidableEq

/-- Model of the external collaborators DatabaseFactory and
DatabaseInterface: creation of a backend instance, connect, and
retrieveJson, each of which may raise. -/
structure BackendModel where
  createOk : String → Except BackendErr Unit
  connect : String → String → String → String → Except BackendErr Unit
  retrieveJson : String → Int → List (String × String) → Except BackendErr String

/-- The data of a TObjectAsyncWorker (the callback is identified by its
function id; output starts empty as in the member initializer list). -/
structure Worker where
  callback : Nat
  path : String
  output : String
  timestamp : Int
  deriving DecidableEq

/-- The TObjectAsyncWorker constructor: runs synchronously in the caller's
context; creates the backend instance for the configured type and connects
with the configured credentials.  An error raised by either call propagates
synchronously out of the constructor. -/
def mkWorker (be : BackendModel) (cfg : Config) (cb : Nat) (path : String)
    (timestamp : Int) : Except BackendErr Worker :=
  match be.createOk cfg.type with
  | .error e => .error e
  | .ok _ =>
    match be.connect cfg.host cfg.database cfg.username cfg.password with
    | .error e => .error e
    | .ok _ => .ok { callback := cb, path := path, output := "", timestamp := timestamp }

/-- Execute: the one blocking backend call, with an empty metadata map; on
success the returned JSON text is stored in output. -/
def executeWorker (be : BackendModel) (w : Worker) : Except BackendErr Worker :=
  match be.retrieveJson w.path w.timestamp [] with
  | .ok s => .ok { w with output := s }
  | .error e => .error e

/-- One invocation of the caller-supplied continuation: the two values
passed to the callback. -/
structure ContinuationCall where
  errArg : JsValue
  resArg : JsValue
  deriving DecidableEq

/-- OnOK: invoke the continuation with null and the output string. -/
def onOK (w : Worker) : ContinuationCall :=
  { errArg := JsValue.null, resArg := JsValue.str w.output }

/-- OnError: invoke the continuation with the error value and undefined. -/
def onError (e : BackendErr) : ContinuationCall :=
  { errArg := JsValue.errObj e.msg, resArg := JsValue.undefined }

/-- A queued AsyncWorker runs Execute on the pool and then exactly one of
OnOK or OnError back on the caller's context. -/
def runTask (be : BackendModel) (w : Worker) : ContinuationCall :=
  match executeWorker be w with
  | .ok w2 => onOK w2
  | .error e => onError e

/-- Outcome of a call to GetObject as seen by the caller: a synchronously
thrown TypeError from validation, a synchronously propagating backend error
from the worker constructor, or a queued task. -/
inductive GetOutcome
  | syncError (msg : String)
  | syncThrow (e : BackendErr)
  | queued (w : Worker)
  deriving DecidableEq

/-- The path GetObject extracts from the first argument. -/
def pathOf (args : List JsValue) : String := (argAt args 0).asString

/-- The timestamp GetObject hands to the worker: Int64Value of the second
argument, stored into a uint64_t local, then passed to the long constructor
parameter. -/
def tsOf (args : List JsValue) : Int :=
  toInt64Wrap (toUInt64Wrap ((argAt args 1).int64Value))

/-- The continuation GetObject extracts from the third argument. -/
def cbOf (args : List JsValue) : Nat := (argAt args 2).funcId

/-- GetObject: checks the argument count, then that the third argument is a
function — each check throws and returns early on failure — then constructs
the worker synchronously (so a backend error from create or connect escapes
here) and queues it. -/
def getObject (be : BackendModel) (cfg : Config) (args : List JsValue) : GetOutcome :=
  if args.length < 3 then GetOutcome.syncError "Invalid argument count"
  else if !(argAt args 2).isFunction then GetOutcome.syncError "Invalid argument types"
  else
    match mkWorker be cfg (cbOf args) (pathOf args) (tsOf args) with
    | .ok w => GetOutcome.queued w
    | .error e => GetOutcome.syncThrow e

/-- The two execution contexts of the addon: the caller's JavaScript thread,
and the worker pool the AsyncWorker body executes on. -/
inductive ExecCtx
  | caller
  | workerPool
  deriving DecidableEq

/-- The observable operations of one get call, each tagged with the context
it runs in. -/
inductive OpEvent
  | create (type : String) (ctx : ExecCtx)
  | connect (host database username password : String) (ctx : ExecCtx)
  | retrieve (path : String) (timestamp : Int)
      (metadata : List (String × String)) (ctx : ExecCtx)
  | invokeContinuation (cb : Nat) (call : ContinuationCall) (ctx : ExecCtx)
  | throwSync (msg : String) (ctx : ExecCtx)
  deriving DecidableEq

/-- The context an event runs in. -/
def OpEvent.ctx : OpEvent → ExecCtx
  | .create _ c => c
  | .connect _ _ _ _ c => c
  | .retrieve _ _ _ c => c
  | .invokeContinuation _ _ c => c
  | .throwSync _ c => c

/-- Whether an event is the connect call. -/
def OpEvent.isConnect : OpEvent → Bool
  | .connect _ _ _ _ _ => true
  | _ => false

/-- Whether an event is the retrieveJson call. -/
def OpEvent.isRetrieve : OpEvent → Bool
  | .retrieve _ _ _ _ => true
  | _ => false

/-- Whether an event is an invocation of the continuation. -/
def OpEvent.isInvoke : OpEvent → Bool
  | .invokeContinuation _ _ _ => true
  | _ => false

/-- Full event trace of one call to get, through task completion.  Per the
AsyncWorker contract: the argument checks and the worker constructor
(create, connect) run synchronously in the caller's context; Execute
(retrieveJson) runs on the worker pool; the single continuation invocation
runs back on the caller's context. -/
def getTrace (be : BackendModel) (cfg : Config) (args : List JsValue) : List OpEvent :=
  if args.length < 3 then
    [OpEvent.throwSync "Invalid argument count" ExecCtx.caller]
  else if !(argAt args 2).isFunction then
    [OpEvent.throwSync "Invalid argument types" ExecCtx.caller]
  else
    match be.createOk cfg.type with
    | .error e =>
      [OpEvent.create cfg.type ExecCtx.caller,
       OpEvent.throwSync e.msg ExecCtx.caller]
    | .ok _ =>
      match be.connect cfg.host cfg.database cfg.username cfg.password with
      | .error e =>
        [OpEvent.create cfg.type ExecCtx.caller,
         OpEvent.connect cfg.host cfg.database cfg.username cfg.password ExecCtx.caller,
         OpEvent.throwSync e.msg ExecCtx.caller]
      | .ok _ =>
        [OpEvent.create cfg.type ExecCtx.caller,
         OpEvent.connect cfg.host cfg.database cfg.username cfg.password ExecCtx.caller,
         OpEvent.retrieve (pathOf args) (tsOf args) [] ExecCtx.workerPool] ++
        match be.retrieveJson (pathOf args) (tsOf args) [] with
        | .ok s =>
          [OpEvent.invokeContinuation (cbOf args)
            { errArg := JsValue.null, resArg := JsValue.str s } ExecCtx.caller]
        | .error e =>
          [OpEvent.invokeContinuation (cbOf args)
            { errArg := JsValue.errObj e.msg, resArg := JsValue.undefined } ExecCtx.caller]

/-- A backend whose every operation succeeds, retrieveJson returning json. -/
def okBackend (json : String) : BackendModel :=
  { createOk := fun _ => Except.ok ()
    connect := fun _ _ _ _ => Except.ok ()
    retrieveJson := fun _ _ _ => Except.ok json }

/-- A backend whose connect raises. -/
def failConnectBackend (m : String) : BackendModel :=
  { createOk := fun _ => Except.ok ()
    connect := fun _ _ _ _ => Except.error { msg := m }
    retrieveJson := fun _ _ _ => Except.ok "" }

/-- A backend whose retrieveJson raises. -/
def failRetrieveBackend (m : String) : BackendModel :=
  { createOk := fun _ => Except.ok ()
    connect := fun _ _ _ _ => Except.ok ()
    retrieveJson := fun _ _ _ => Except.error { msg := m } }

/-- A sample configuration. -/
def cfg0 : Config :=
  { type := "CCDB", host := "localhost", database := "qc"
    username := "u", password := "pw" }

/-- C1: InitBackend combines its two malformedness conditions with a logical
and instead of or, so neither condition alone raises the error: a five
argument call with a non-string first argument does not throw, and a one
argument call whose first argument is a string does not throw, although the
claim says each condition individually suffices. -/
theorem init_and_check_misses_nonstring_first :
    (initBackend cfg0 [JsValue.num 42, JsValue.str "h", JsValue.str "db",
        JsValue.str "user", JsValue.str "pw"]).threw = false ∧
    (initBackend cfg0 [JsValue.str "CCDB"]).threw = false := by
  constructor <;> rfl

/-- C2: even on a call that does throw InvalidArgument (four arguments with
a non-string first, so both conditions of the and hold), InitBackend falls
through the throw and overwrites the configuration statics: host changes
from localhost to newhost. -/
theorem init_throw_still_overwrites_config :
    (initBackend cfg0 [JsValue.num 42, JsValue.str "newhost", JsValue.str "db",
        JsValue.str "user"]).threw = true ∧
    (initBackend cfg0 [JsValue.num 42, JsValue.str "newhost", JsValue.str "db",
        JsValue.str "user"]).config.host = "newhost" ∧
    cfg0.host ≠ "newhost" := by
  refine ⟨rfl, rfl, ?_⟩
  decide

/-- C5: a call to get with fewer than three arguments, or whose third
argument is not callable, throws a TypeError synchronously and no task is
created or queued: the whole trace is a single synchronous throw in the
caller's context. -/
theorem get_invalid_args_sync_error_no_task
    (be : BackendModel) (cfg : Config) (args : List JsValue)
    (h : args.length < 3 ∨ (argAt args 2).isFunction = false) :
    ∃ m, getObject be cfg args = GetOutcome.syncError m ∧
      getTrace be cfg args = [OpEvent.throwSync m ExecCtx.caller] := by
  by_cases hl : args.length < 3
  · exact ⟨"Invalid argument count", by simp [getObject, hl], by simp [getTrace, hl]⟩
  · have hf : (argAt args 2).isFunction = false := h.resolve_left hl
    exact ⟨"Invalid argument types", by simp [getObject, hl, hf],
      by simp [getTrace, hl, hf]⟩

/-- C5 witness: a concrete two-argument call to get throws synchronously and
produces a throw-only trace. -/
theorem get_invalid_args_sync_error_no_task_witness :
    ∃ m, getObject (okBackend "j") cfg0 [JsValue.str "qc/x", JsValue.num 5]
          = GetOutcome.syncError m ∧
      getTrace (okBackend "j") cfg0 [JsValue.str "qc/x", JsValue.num 5]
          = [OpEvent.throwSync m ExecCtx.caller] :=
  get_invalid_args_sync_error_no_task _ _ _ (Or.inl (by decide))

/-- C10: the synchronous validation of get checks only the argument count
and the callability of the third argument: with at least three arguments and
a callable third argument no TypeError is thrown, and whenever the backend
constructor succeeds a task is queued — even for a non-string path argument
and a non-number timestamp argument. -/
theorem get_validation_only_count_and_callable
    (be : BackendModel) (cfg : Config) (args : List JsValue)
    (hlen : 3 ≤ args.length) (hfn : (argAt args 2).isFunction = true) :
    (∀ m, getObject be cfg args ≠ GetOutcome.syncError m) ∧
    (be.createOk cfg.type = Except.ok () →
      be.connect cfg.host cfg.database cfg.username cfg.password = Except.ok () →
      getObject be cfg args
        = GetOutcome.queued
            { callback := cbOf args, path := pathOf args, output := ""
              timestamp := tsOf args }) := by
  have hl : ¬ args.length < 3 := by omega
  constructor
  · intro m
    simp only [getObject, hl, if_false, hfn, Bool.not_true, mkWorker]
    cases h1 : be.createOk cfg.type with
    | error e => simp
    | ok u =>
      cases h2 : be.connect cfg.host cfg.database cfg.username cfg.password with
      | error e => simp
      | ok v => simp
  · intro h1 h2
    simp [getObject, hl, hfn, mkWorker, h1, h2]

/-- C10 witness: a call with a numeric path, a boolean timestamp and a
callable third argument raises no validation error and is queued. -/
theorem get_validation_only_count_and_callable_witness :
    (∀ m, getObject (okBackend "j2") cfg0
        [JsValue.num 7, JsValue.boolean true, JsValue.func 3]
        ≠ GetOutcome.syncError m) ∧
    ((okBackend "j2").createOk cfg0.type = Except.ok () →
      (okBackend "j2").connect cfg0.host cfg0.database cfg0.username cfg0.password
        = Except.ok () →
      getObject (okBackend "j2") cfg0 [JsValue.num 7, JsValue.boolean true, JsValue.func 3]
        = GetOutcome.queued
            { callback := cbOf [JsValue.num 7, JsValue.boolean true, JsValue.func 3]
              path := pathOf [JsValue.num 7, JsValue.boolean true, JsValue.func 3]
              output := ""
              timestamp := tsOf [JsValue.num 7, JsValue.boolean true, JsValue.func 3] }) :=
  get_validation_only_count_and_callable _ _ _ (by decide) (by decide)

/-- C3 counterexample: with a backend whose connect raises, a well-formed
call to get delivers the backend failure by throwing it synchronously to the
caller, and the continuation is never invoked: the claim that every backend
failure, including a connect failure, is delivered through the continuation
error slot is false at this input. -/
theorem connect_failure_thrown_synchronously :
    getObject (failConnectBackend "refused") cfg0
        [JsValue.str "qc/x", JsValue.num 0, JsValue.func 1]
      = GetOutcome.syncThrow { msg := "refused" } ∧
    (getTrace (failConnectBackend "refused") cfg0
        [JsValue.str "qc/x", JsValue.num 0, JsValue.func 1]).filter OpEvent.isInvoke
      = [] := by
  constructor <;> rfl

/-- C3 amended: a failure raised by the backend during the retrieval call is
delivered asynchronously through the continuation error slot and never
thrown to the caller of get, but a failure of connect occurs during the
synchronous worker construction and is thrown synchronously to the caller. -/
theorem backend_error_delivery_corrected
    (be : BackendModel) (cfg : Config) (args : List JsValue)
    (hlen : 3 ≤ args.length) (hfn : (argAt args 2).isFunction = true)
    (hcr : be.createOk cfg.type = Except.ok ()) :
    (∀ e, be.connect cfg.host cfg.database cfg.username cfg.password = Except.error e →
      getObject be cfg args = GetOutcome.syncThrow e) ∧
    (∀ e, be.connect cfg.host cfg.database cfg.username cfg.password = Except.ok () →
      be.retrieveJson (pathOf args) (tsOf args) [] = Except.error e →
      getObject be cfg args
          = GetOutcome.queued
              { callback := cbOf args, path := pathOf args, output := ""
                timestamp := tsOf args } ∧
        runTask be { callback := cbOf args, path := pathOf args, output := ""
                     timestamp := tsOf args }
          = { errArg := JsValue.errObj e.msg, resArg := JsValue.undefined }) := by
  have hl : ¬ args.length < 3 := by omega
  constructor
  · intro e hco
    simp [getObject, hl, hfn, mkWorker, hcr, hco]
  · intro e hco hr
    refine ⟨by simp [getObject, hl, hfn, mkWorker, hcr, hco], ?_⟩
    simp [runTask, executeWorker, hr, onError]

/-- C3 witness: with a concrete backend whose retrieveJson raises, the
amended delivery contract holds at a concrete well-formed call. -/
theorem backend_error_delivery_corrected_witness :
    (∀ e, (failRetrieveBackend "missing").connect cfg0.host cfg0.database
          cfg0.username cfg0.password = Except.error e →
      getObject (failRetrieveBackend "missing") cfg0
          [JsValue.str "qc/x", JsValue.num 9, JsValue.func 2]
        = GetOutcome.syncThrow e) ∧
    (∀ e, (failRetrieveBackend "missing").connect cfg0.host cfg0.database
          cfg0.username cfg0.password = Except.ok () →
      (failRetrieveBackend "missing").retrieveJson
          (pathOf [JsValue.str "qc/x", JsValue.num 9, JsValue.func 2])
          (tsOf [JsValue.str "qc/x", JsValue.num 9, JsValue.func 2]) []
        = Except.error e →
      getObject (failRetrieveBackend "missing") cfg0
          [JsValue.str "qc/x", JsValue.num 9, JsValue.func 2]
          = GetOutcome.queued
              { callback := cbOf [JsValue.str "qc/x", JsValue.num 9, JsValue.func 2]
                path := pathOf [JsValue.str "qc/x", JsValue.num 9, JsValue.func 2]
                output := ""
                timestamp := tsOf [JsValue.str "qc/x", JsValue.num 9, JsValue.func 2] } ∧
        runTask (failRetrieveBackend "missing")
            { callback := cbOf [JsValue.str "qc/x", JsValue.num 9, JsValue.func 2]
              path := pathOf [JsValue.str "qc/x", JsValue.num 9, JsValue.func 2]
              output := ""
              timestamp := tsOf [JsValue.str "qc/x", JsValue.num 9, JsValue.func 2] }
          = { errArg := JsValue.errObj e.msg, resArg := JsValue.undefined }) :=
  backend_error_delivery_corrected _ _ _ (by decide) (by decide) rfl

/-- C4 counterexample: in a concrete well-formed call to get, the connect
event does not run off the caller's context — the claim that the connection
is created off the caller's execution context is false at this input. -/
theorem connect_runs_on_caller_context :
    ¬ (∀ ev ∈ getTrace (okBackend "j") cfg0
          [JsValue.str "qc/x", JsValue.num 0, JsValue.func 1],
        ev.isConnect = true → ev.ctx = ExecCtx.workerPool) := by
  decide

/-- C4 amended: for every well-formed call to get, the blocking retrieval
runs off the caller's context on the worker pool, while the backend
connection is created synchronously in the caller's context inside the
worker constructor. -/
theorem retrieval_off_caller_connect_on_caller
    (be : BackendModel) (cfg : Config) (args : List JsValue)
    (hlen : 3 ≤ args.length) (hfn : (argAt args 2).isFunction = true) :
    (∀ ev ∈ getTrace be cfg args, ev.isRetrieve = true → ev.ctx = ExecCtx.workerPool) ∧
    (∀ ev ∈ getTrace be cfg args, ev.isConnect = true → ev.ctx = ExecCtx.caller) := by
  have hl : ¬ args.length < 3 := by omega
  constructor <;>
  · simp only [getTrace, hl, if_false, hfn, Bool.not_true]
    cases be.createOk cfg.type with
    | error e => simp [OpEvent.isRetrieve, OpEvent.isConnect, OpEvent.ctx]
    | ok u =>
      cases be.connect cfg.host cfg.database cfg.username cfg.password with
      | error e => simp [OpEvent.isRetrieve, OpEvent.isConnect, OpEvent.ctx]
      | ok v =>
        cases be.retrieveJson (pathOf args) (tsOf args) [] with
        | ok s => simp [OpEvent.isRetrieve, OpEvent.isConnect, OpEvent.ctx]
        | error e => simp [OpEvent.isRetrieve, OpEvent.isConnect, OpEvent.ctx]

/-- C4 witness: the amended context placement holds at a concrete
well-formed call. -/
theorem retrieval_off_caller_connect_on_caller_witness :
    (∀ ev ∈ getTrace (okBackend "j") cfg0
          [JsValue.str "qc/y", JsValue.num 3, JsValue.func 2],
        ev.isRetrieve = true → ev.ctx = ExecCtx.workerPool) ∧
    (∀ ev ∈ getTrace (okBackend "j") cfg0
          [JsValue.str "qc/y", JsValue.num 3, JsValue.func 2],
        ev.isConnect = true → ev.ctx = ExecCtx.caller) :=
  retrieval_off_caller_connect_on_caller _ _ _ (by decide) (by decide)

/-- C6: every queued task invokes the continuation exactly once — the trace
holds exactly one invocation event — with null and the JSON string on
backend success, or with the error value and undefined on backend failure,
and the two outcomes are mutually exclusive. -/
theorem task_outcome_dichotomy_exactly_once
    (be : BackendModel) (cfg : Config) (args : List JsValue)
    (hlen : 3 ≤ args.length) (hfn : (argAt args 2).isFunction = true)
    (hcr : be.createOk cfg.type = Except.ok ())
    (hco : be.connect cfg.host cfg.database cfg.username cfg.password = Except.ok ()) :
    ∃ c, (getTrace be cfg args).filter OpEvent.isInvoke
          = [OpEvent.invokeContinuation (cbOf args) c ExecCtx.caller] ∧
      ((∃ s, be.retrieveJson (pathOf args) (tsOf args) [] = Except.ok s ∧
          c = { errArg := JsValue.null, resArg := JsValue.str s }) ∨
       (∃ e, be.retrieveJson (pathOf args) (tsOf args) [] = Except.error e ∧
          c = { errArg := JsValue.errObj e.msg, resArg := JsValue.undefined })) ∧
      ¬ ((∃ s, be.retrieveJson (pathOf args) (tsOf args) [] = Except.ok s) ∧
         (∃ e, be.retrieveJson (pathOf args) (tsOf args) [] = Except.error e)) := by
  have hl : ¬ args.length < 3 := by omega
  cases hr : be.retrieveJson (pathOf args) (tsOf args) [] with
  | ok s =>
    refine ⟨{ errArg := JsValue.null, resArg := JsValue.str s }, ?_, ?_, ?_⟩
    · simp [getTrace, hl, hfn, hcr, hco, hr, OpEvent.isInvoke]
    · exact Or.inl ⟨s, rfl, rfl⟩
    · rintro ⟨⟨s1, hs1⟩, ⟨e1, he1⟩⟩
      rw [hs1] at he1
      simp at he1
  | error e =>
    refine ⟨{ errArg := JsValue.errObj e.msg, resArg := JsValue.undefined }, ?_, ?_, ?_⟩
    · simp [getTrace, hl, hfn, hcr, hco, hr, OpEvent.isInvoke]
    · exact Or.inr ⟨e, rfl, rfl⟩
    · rintro ⟨⟨s1, hs1⟩, ⟨e1, he1⟩⟩
      simp at hs1

/-- C6 witness: the dichotomy at a concrete successful retrieval of
qc/TEST/obj1 at timestamp 1000. -/
theorem task_outcome_dichotomy_exactly_once_witness :
    ∃ c, (getTrace (okBackend "payload") cfg0
            [JsValue.str "qc/TEST/obj1", JsValue.num 1000, JsValue.func 4]).filter
            OpEvent.isInvoke
          = [OpEvent.invokeContinuation
              (cbOf [JsValue.str "qc/TEST/obj1", JsValue.num 1000, JsValue.func 4])
              c ExecCtx.caller] ∧
      ((∃ s, (okBackend "payload").retrieveJson
            (pathOf [JsValue.str "qc/TEST/obj1", JsValue.num 1000, JsValue.func 4])
            (tsOf [JsValue.str "qc/TEST/obj1", JsValue.num 1000, JsValue.func 4]) []
          = Except.ok s ∧
          c = { errArg := JsValue.null, resArg := JsValue.str s }) ∨
       (∃ e, (okBackend "payload").retrieveJson
            (pathOf [JsValue.str "qc/TEST/obj1", JsValue.num 1000, JsValue.func 4])
            (tsOf [JsValue.str "qc/TEST/obj1", JsValue.num 1000, JsValue.func 4]) []
          = Except.error e ∧
          c = { errArg := JsValue.errObj e.msg, resArg := JsValue.undefined })) ∧
      ¬ ((∃ s, (okBackend "payload").retrieveJson
            (pathOf [JsValue.str "qc/TEST/obj1", JsValue.num 1000, JsValue.func 4])
            (tsOf [JsValue.str "qc/TEST/obj1", JsValue.num 1000, JsValue.func 4]) []
          = Except.ok s) ∧
         (∃ e, (okBackend "payload").retrieveJson
            (pathOf [JsValue.str "qc/TEST/obj1", JsValue.num 1000, JsValue.func 4])
            (tsOf [JsValue.str "qc/TEST/obj1", JsValue.num 1000, JsValue.func 4]) []
          = Except.error e)) :=
  task_outcome_dichotomy_exactly_once _ _ _ (by decide) (by decide) rfl rfl

/-- C7: every retrieve event carries the empty metadata map, and on backend
success the continuation receives exactly the backend string, unmodified. -/
theorem empty_metadata_and_verbatim_passthrough
    (be : BackendModel) (cfg : Config) (args : List JsValue) (s : String)
    (hlen : 3 ≤ args.length) (hfn : (argAt args 2).isFunction = true)
    (hcr : be.createOk cfg.type = Except.ok ())
    (hco : be.connect cfg.host cfg.database cfg.username cfg.password = Except.ok ())
    (hr : be.retrieveJson (pathOf args) (tsOf args) [] = Except.ok s) :
    (∀ ev ∈ getTrace be cfg args, ∀ p t m c,
        ev = OpEvent.retrieve p t m c → m = ([] : List (String × String))) ∧
    (getTrace be cfg args).filter OpEvent.isInvoke
        = [OpEvent.invokeContinuation (cbOf args)
            { errArg := JsValue.null, resArg := JsValue.str s } ExecCtx.caller] := by
  have hl : ¬ args.length < 3 := by omega
  constructor
  · intro ev hev p t m c hev2
    subst hev2
    simp only [getTrace, hl, if_false, hfn, Bool.not_true, hcr, hco, hr] at hev
    simp at hev
    exact hev.2.2.1
  · simp [getTrace, hl, hfn, hcr, hco, hr, OpEvent.isInvoke]

/-- C7 witness: the empty metadata map and verbatim pass-through at a
concrete successful call. -/
theorem empty_metadata_and_verbatim_passthrough_witness :
    (∀ ev ∈ getTrace (okBackend "raw-json") cfg0
          [JsValue.str "qc/z", JsValue.num 7, JsValue.func 5], ∀ p t m c,
        ev = OpEvent.retrieve p t m c → m = ([] : List (String × String))) ∧
    (getTrace (okBackend "raw-json") cfg0
        [JsValue.str "qc/z", JsValue.num 7, JsValue.func 5]).filter OpEvent.isInvoke
        = [OpEvent.invokeContinuation
            (cbOf [JsValue.str "qc/z", JsValue.num 7, JsValue.func 5])
            { errArg := JsValue.null, resArg := JsValue.str "raw-json" } ExecCtx.caller] :=
  empty_metadata_and_verbatim_passthrough _ _ _ _ (by decide) (by decide) rfl rfl rfl

/-- C8: a successful call to InitBackend with five string arguments
overwrites all five configuration statics with exactly those arguments,
whatever the previous state was (last write wins), and a task created
afterwards creates its backend with the new type and connects with the new
credentials. -/
theorem init_overwrites_and_later_tasks_use_new_config
    (prev : Config) (t h d u p : String) (rest : List JsValue)
    (be : BackendModel) (gargs : List JsValue)
    (hlen : 3 ≤ gargs.length) (hfn : (argAt gargs 2).isFunction = true)
    (hcr : be.createOk t = Except.ok ())
    (hco : be.connect h d u p = Except.ok ()) :
    initBackend prev
        ([JsValue.str t, JsValue.str h, JsValue.str d, JsValue.str u, JsValue.str p] ++ rest)
      = { threw := false
          config := { type := t, host := h, database := d, username := u, password := p } } ∧
    OpEvent.create t ExecCtx.caller
      ∈ getTrace be { type := t, host := h, database := d, username := u, password := p } gargs ∧
    OpEvent.connect h d u p ExecCtx.caller
      ∈ getTrace be { type := t, host := h, database := d, username := u, password := p } gargs := by
  have hl : ¬ gargs.length < 3 := by omega
  refine ⟨?_, ?_, ?_⟩
  · simp [initBackend, argAt, JsValue.isString, JsValue.asString]
  · cases hr : be.retrieveJson (pathOf gargs) (tsOf gargs) [] <;>
      simp [getTrace, hl, hfn, hcr, hco, hr]
  · cases hr : be.retrieveJson (pathOf gargs) (tsOf gargs) [] <;>
      simp [getTrace, hl, hfn, hcr, hco, hr]

/-- C8 witness: reconfiguring with fresh credentials makes a subsequent
concrete task create and connect with exactly those credentials. -/
theorem init_overwrites_and_later_tasks_use_new_config_witness :
    initBackend cfg0
        ([JsValue.str "CCDB2", JsValue.str "h2", JsValue.str "db2",
          JsValue.str "u2", JsValue.str "pw2"] ++ [])
      = { threw := false
          config := { type := "CCDB2", host := "h2", database := "db2"
                      username := "u2", password := "pw2" } } ∧
    OpEvent.create "CCDB2" ExecCtx.caller
      ∈ getTrace (okBackend "j")
          { type := "CCDB2", host := "h2", database := "db2"
            username := "u2", password := "pw2" }
          [JsValue.str "qc/x", JsValue.num 1, JsValue.func 0] ∧
    OpEvent.connect "h2" "db2" "u2" "pw2" ExecCtx.caller
      ∈ getTrace (okBackend "j")
          { type := "CCDB2", host := "h2", database := "db2"
            username := "u2", password := "pw2" }
          [JsValue.str "qc/x", JsValue.num 1, JsValue.func 0] :=
  init_overwrites_and_later_tasks_use_new_config _ _ _ _ _ _ _ _ _
    (by decide) (by decide) rfl rfl

/-- Round trip of a signed 64-bit value through the uint64_t local and the
long constructor parameter: reducing modulo 2 to the 64 and re-signing gives
the value back. -/
theorem toInt64Wrap_uint64_roundtrip (i : Int)
    (hlo : -twoPow63 ≤ i) (hhi : i < twoPow63) :
    toInt64Wrap (toUInt64Wrap (toInt64Wrap i)) = i := by
  simp only [toInt64Wrap, toUInt64Wrap, twoPow64, twoPow63] at *
  split_ifs <;> omega

/-- C9: for a timestamp argument within the signed 64-bit range, the
timestamp the worker hands to retrieveJson equals that value, despite the
intermediate uint64_t and long conversions. -/
theorem timestamp_roundtrip_int64
    (be : BackendModel) (cfg : Config) (args : List JsValue) (i : Int)
    (hlo : -twoPow63 ≤ i) (hhi : i < twoPow63)
    (h1 : argAt args 1 = JsValue.num i)
    (hlen : 3 ≤ args.length) (hfn : (argAt args 2).isFunction = true)
    (hcr : be.createOk cfg.type = Except.ok ())
    (hco : be.connect cfg.host cfg.database cfg.username cfg.password = Except.ok ()) :
    tsOf args = i ∧
    OpEvent.retrieve (pathOf args) i [] ExecCtx.workerPool ∈ getTrace be cfg args := by
  have hts : tsOf args = i := by
    rw [tsOf, h1]
    simp only [JsValue.int64Value]
    exact toInt64Wrap_uint64_roundtrip i hlo hhi
  refine ⟨hts, ?_⟩
  have hl : ¬ args.length < 3 := by omega
  rw [← hts]
  cases hr : be.retrieveJson (pathOf args) (tsOf args) [] <;>
    simp [getTrace, hl, hfn, hcr, hco, hr]

/-- C9 witness: a concrete negative timestamp of minus five survives the
conversions and reaches the retrieve call unchanged. -/
theorem timestamp_roundtrip_int64_witness :
    tsOf [JsValue.str "qc/obj", JsValue.num (-5), JsValue.func 0] = -5 ∧
    OpEvent.retrieve (pathOf [JsValue.str "qc/obj", JsValue.num (-5), JsValue.func 0])
        (-5) [] ExecCtx.workerPool
      ∈ getTrace (okBackend "j") cfg0
          [JsValue.str "qc/obj", JsValue.num (-5), JsValue.func 0] :=
  timestamp_roundtrip_int64 _ _ _ _ (by decide) (by decide) rfl
    (by decide) (by decide) rfl rfl
